import Mathlib

/-!
Verification of the correlation and aggregation engine of
`demo-app/demo_three_pillars.py`: global packet totals, per-entity
counter state, the packet-rate estimator, the observation-pull
callbacks, the main simulation loop, and the correlated log emitter.

The shallow embedding translates the mutable state of the Python module into explicit
Lean structures: the module-level mutable variables become fields of
`GlobalState`, each callback becomes a pure function from state (and the
random draws it consumes, passed as explicit arguments) to state plus
its outputs, and the main loop body becomes a function from state and a
list of simulated items to state plus the emitted log records.
Timestamps and rates are rationals; packet and byte counts are naturals.
-/

namespace Demo

/-- Per-source entry of `src_state`: `{"packets": 0, "bytes": 0, "last": 0}`. -/
structure SrcEntry where
  packets : Nat
  bytes : Nat
  last : Nat
deriving Repr, DecidableEq

/-- Per-destination entry of `dst_state`: `{"packets": 0, "bytes": 0}`.
Destinations carry no `last` attribute. -/
structure DstEntry where
  packets : Nat
  bytes : Nat
deriving Repr, DecidableEq

/-- Rate-estimator state: the module globals `last_rate_calc` and `last_total`. -/
structure RateState where
  last_rate_calc : ℚ
  last_total : ℚ
deriving Repr, DecidableEq

/-- The configured source names: `[f"source{i}" for i in range(1, 6)]`. -/
def sources : List String :=
  ["source1", "source2", "source3", "source4", "source5"]

/-- The configured destination names: `[f"dest{i}" for i in range(1, 3)]`. -/
def destinations : List String :=
  ["dest1", "dest2"]

/-- The module-level mutable state of the demo app: the two global packet
totals, the per-entity dictionaries `src_state` and `dst_state` (embedded as
functions from entity name), and the rate-estimator globals. -/
structure GlobalState where
  packets_in_total : Nat
  packets_out_total : Nat
  src_state : String → SrcEntry
  dst_state : String → DstEntry
  rate : RateState

/-- Initial module state: totals start at 0, every entity entry starts at all
zeros, `last_total = 0`, and `last_rate_calc` is the construction-time clock
reading `t0`. -/
def init_state (t0 : ℚ) : GlobalState :=
  { packets_in_total := 0
    packets_out_total := 0
    src_state := fun _ => ⟨0, 0, 0⟩
    dst_state := fun _ => ⟨0, 0⟩
    rate := ⟨t0, 0⟩ }

/-- A single metric observation: a value and its label set, as built by
`Observation(value, labels)` in the callbacks. -/
structure Obs where
  value : ℚ
  labels : List (String × String)
deriving Repr, DecidableEq

/-- Callback `packets_in_cb`: reports the current global inbound total. -/
def packets_in_cb (st : GlobalState) : List Obs :=
  [⟨st.packets_in_total, [("hostname", "host1")]⟩]

/-- Callback `packets_out_cb`: reports the current global outbound total. -/
def packets_out_cb (st : GlobalState) : List Obs :=
  [⟨st.packets_out_total, [("hostname", "host1")]⟩]

/-- Callback `packet_rate_cb`: reads the clock (`now`), clamps the elapsed time to the
floor 0.001, divides the growth of `packets_in_total + packets_out_total`
since the previous call by the elapsed time, then stores the current total
and timestamp for the next call.  Returns the rate observation value and the
updated state. -/
def packet_rate_cb (now : ℚ) (st : GlobalState) : ℚ × GlobalState :=
  let elapsed := max (1 / 1000) (now - st.rate.last_rate_calc)
  let current : ℚ := (st.packets_in_total : ℚ) + (st.packets_out_total : ℚ)
  let rate := (current - st.rate.last_total) / elapsed
  (rate, { st with rate := ⟨now, current⟩ })

/-- Pointwise update of an entity dictionary at one key. -/
def updAt {α : Type} (f : String → α) (k : String) (v : α) : String → α :=
  fun x => if x = k then v else f x

/-- Callback `src_gauge_cb`: for each configured source, draws a packet increment
`add_pk = randint(50, 200)` and a byte increment `add_by = add_pk *
randint(64, 1200)` (the draws are passed in as `randPk` and `randMul`),
adds them to the source's cumulative counters, sets the `last` field to
`now`, and appends one observation per metric (`packets`, `bytes`, `last`)
carrying the just-updated cumulative values. -/
def src_gauge_cb (randPk randMul : String → Nat) (now : Nat) (st : GlobalState) :
    GlobalState × List Obs :=
  let res := sources.foldl (fun (acc : (String → SrcEntry) × List Obs) s =>
    let add_pk := randPk s
    let add_by := add_pk * randMul s
    let e := acc.1 s
    let e2 : SrcEntry := ⟨e.packets + add_pk, e.bytes + add_by, now⟩
    (updAt acc.1 s e2,
     acc.2 ++
       [⟨(e2.packets : ℚ), [("hostname", "host1"), ("src", s), ("metric", "packets")]⟩,
        ⟨(e2.bytes : ℚ), [("hostname", "host1"), ("src", s), ("metric", "bytes")]⟩,
        ⟨(e2.last : ℚ), [("hostname", "host1"), ("src", s), ("metric", "last")]⟩]))
    (st.src_state, [])
  ({ st with src_state := res.1 }, res.2)

/-- Callback `dst_gauge_cb`: for each configured destination, draws a packet increment
`add_pk = randint(40, 160)` and a byte increment `add_by = add_pk *
randint(64, 1200)`, adds them to the destination's cumulative counters, and
appends one observation per metric (`packets`, `bytes`) carrying the
just-updated cumulative values.  No `last` field exists or is touched. -/
def dst_gauge_cb (randPk randMul : String → Nat) (st : GlobalState) :
    GlobalState × List Obs :=
  let res := destinations.foldl (fun (acc : (String → DstEntry) × List Obs) d =>
    let add_pk := randPk d
    let add_by := add_pk * randMul d
    let e := acc.1 d
    let e2 : DstEntry := ⟨e.packets + add_pk, e.bytes + add_by⟩
    (updAt acc.1 d e2,
     acc.2 ++
       [⟨(e2.packets : ℚ), [("hostname", "host1"), ("dst", d), ("metric", "packets")]⟩,
        ⟨(e2.bytes : ℚ), [("hostname", "host1"), ("dst", d), ("metric", "bytes")]⟩]))
    (st.dst_state, [])
  ({ st with dst_state := res.1 }, res.2)

/-- Lowercase hexadecimal digit, as used by the Python `x` format specifier. -/
def hexDigit (n : Nat) : Char :=
  if n < 10 then Char.ofNat (48 + n) else Char.ofNat (87 + n)

/-- The hexadecimal digits of `n` (most significant first, empty for 0). -/
def hexChars : Nat → List Char
  | 0 => []
  | n + 1 => hexChars ((n + 1) / 16) ++ [hexDigit ((n + 1) % 16)]
decreasing_by exact Nat.div_lt_self (Nat.succ_pos n) (by omega)

/-- Formatting `f"{tid:032x}"` of Python: lowercase hex, left-padded with zeros to 32
characters. -/
def formatTraceId (tid : Nat) : String :=
  let ds := hexChars tid
  ⟨List.replicate (32 - ds.length) '0' ++ ds⟩

/-- Correlation step of the main loop, `f"{ctx.trace_id:032x}" if ctx and
ctx.trace_id else None`: `ctx` is the current span context (absent when
there is no context object at all), and a trace id of 0 (the id of the invalid
span, i.e. no active unit) also yields `None`. -/
def computeTraceId (ctx : Option Nat) : Option String :=
  match ctx with
  | none => none
  | some tid => if tid ≠ 0 then some (formatTraceId tid) else none

/-- The per-item random draws and clock readings of one pass of the inner
`for` loop: the chosen source and destination names, `size = randint(200,
4000)`, `status = random.choice(["ok", "ok", "ok", "error"])`, the measured
latency, and the wall-clock timestamp string. -/
structure Item where
  src : String
  dst : String
  size : Nat
  status : String
  latency_ms : Nat
  ts : String
deriving Repr, DecidableEq

/-- The population `random.choice` draws each status of an item from. -/
def statusChoices : List String :=
  ["ok", "ok", "ok", "error"]

/-- One structured log record, with the fields the main loop passes to
`log_json` in their fixed order. -/
structure LogRecord where
  ts : String
  level : String
  hostname : String
  src : String
  dst : String
  bytes : Nat
  latency_ms : Nat
  status : String
  trace_id : Option String
  msg : String
deriving Repr, DecidableEq

/-- The record dict the main loop builds for one item: severity is `"INFO"`
when the status of the item is `"ok"` and `"ERROR"` otherwise, and the
correlation identity comes from the active span context. -/
def mkLogRecord (it : Item) (ctx : Option Nat) : LogRecord :=
  { ts := it.ts
    level := if it.status = "ok" then "INFO" else "ERROR"
    hostname := "host1"
    src := it.src
    dst := it.dst
    bytes := it.size
    latency_ms := it.latency_ms
    status := it.status
    trace_id := computeTraceId ctx
    msg := "processed message" }

/-- One pass of the inner `for` loop: adds `size // 512` to both global
totals and builds the correlated log record.  The per-entity dictionaries
are not touched (sources and destinations are only referenced by name). -/
def processItem (tid : Nat) (st : GlobalState) (it : Item) :
    GlobalState × LogRecord :=
  ({ st with
      packets_in_total := st.packets_in_total + it.size / 512
      packets_out_total := st.packets_out_total + it.size / 512 },
   mkLogRecord it (some tid))

/-- One iteration of the main `while True` loop body with the trace identity of
the root span `tid`: processes each simulated item in order, accumulating
the state updates and the emitted log records. -/
def runIteration (tid : Nat) (st : GlobalState) (items : List Item) :
    GlobalState × List LogRecord :=
  items.foldl (fun acc it =>
    let r := processItem tid acc.1 it
    (r.1, acc.2 ++ [r.2])) (st, [])

/-- Serialization of a record to one JSON line
(`json.dumps(record, separators=(",", ":"))`), string escaping elided. -/
def serialize (r : LogRecord) : String :=
  "\x7b\"ts\":\"" ++ r.ts ++ "\",\"level\":\"" ++ r.level ++
    "\",\"hostname\":\"" ++ r.hostname ++ "\",\"src\":\"" ++ r.src ++
    "\",\"dst\":\"" ++ r.dst ++ "\",\"bytes\":" ++ toString r.bytes ++
    ",\"latency_ms\":" ++ toString r.latency_ms ++ ",\"status\":\"" ++
    r.status ++ "\",\"trace_id\":" ++
    (match r.trace_id with
     | some t => "\"" ++ t ++ "\""
     | none => "null") ++
    ",\"msg\":\"" ++ r.msg ++ "\"\x7d"

/-- Outcome of one `log_json` call: the line appended to the sink (if the
write succeeded), the error report printed to stderr (if the write failed),
and the exception propagated to the caller (if any). -/
structure EmitOutcome where
  written : Option String
  stderrReport : Option String
  raised : Option String
deriving Repr, DecidableEq

/-- Function `log_json(record)`: acquires the handler lock, serializes the record,
and appends it via `logger.info`.  The write path is the CPython
`logging.StreamHandler.emit`, which wraps the `stream.write` call in
`try: ... except Exception: self.handleError(record)`, where `handleError`
prints the failure to stderr and returns; an `OSError` from an unwritable
sink (disk full, permission denied) is therefore caught inside the handler
and is never re-raised to the caller of `log_json`. -/
def log_json (sinkWritable : Bool) (record : LogRecord) : EmitOutcome :=
  if sinkWritable then
    { written := some (serialize record), stderrReport := none, raised := none }
  else
    { written := none
      stderrReport := some "--- Logging error ---"
      raised := none }

/-- The atomic state transitions the process performs: one main-loop
iteration, or one invocation of a pull callback by the metrics exporter. -/
inductive Event where
  | iter (tid : Nat) (items : List Item)
  | srcPull (randPk randMul : String → Nat) (now : Nat)
  | dstPull (randPk randMul : String → Nat)
  | ratePull (now : ℚ)

/-- The state transition of one event (observations and log output
discarded). -/
def step (st : GlobalState) : Event → GlobalState
  | .iter tid items => (runIteration tid st items).1
  | .srcPull randPk randMul now => (src_gauge_cb randPk randMul now st).1
  | .dstPull randPk randMul => (dst_gauge_cb randPk randMul st).1
  | .ratePull now => (packet_rate_cb now st).2

/-- Run a chronological sequence of events from a starting state. -/
def run (st : GlobalState) (evs : List Event) : GlobalState :=
  evs.foldl step st

/-- Sum of the per-item packet increments `size // 512` of a list of items. -/
def sumIncs (items : List Item) : Nat :=
  (items.map fun it => it.size / 512).sum

theorem runIterationAux_fst (tid : Nat) (items : List Item) :
    ∀ (st : GlobalState) (logs : List LogRecord),
      (items.foldl (fun acc it =>
        let r := processItem tid acc.1 it
        (r.1, acc.2 ++ [r.2])) (st, logs)).1 =
      { st with
        packets_in_total := st.packets_in_total + sumIncs items
        packets_out_total := st.packets_out_total + sumIncs items } := by
  induction items with
  | nil =>
    intro st logs
    simp [sumIncs]
  | cons it its ih =>
    intro st logs
    simp only [List.foldl_cons]
    rw [ih]
    simp [processItem, sumIncs, Nat.add_assoc]

theorem runIterationAux_snd (tid : Nat) (items : List Item) :
    ∀ (st : GlobalState) (logs : List LogRecord),
      (items.foldl (fun acc it =>
        let r := processItem tid acc.1 it
        (r.1, acc.2 ++ [r.2])) (st, logs)).2 =
      logs ++ items.map fun it => mkLogRecord it (some tid) := by
  induction items with
  | nil =>
    intro st logs
    simp
  | cons it its ih =>
    intro st logs
    simp only [List.foldl_cons]
    rw [ih]
    simp [processItem]

theorem runIteration_fst (tid : Nat) (st : GlobalState) (items : List Item) :
    (runIteration tid st items).1 =
      { st with
        packets_in_total := st.packets_in_total + sumIncs items
        packets_out_total := st.packets_out_total + sumIncs items } :=
  runIterationAux_fst tid items st []

theorem runIteration_snd (tid : Nat) (st : GlobalState) (items : List Item) :
    (runIteration tid st items).2 =
      items.map fun it => mkLogRecord it (some tid) := by
  rw [runIteration, runIterationAux_snd]
  simp

theorem step_packets_in_le (st : GlobalState) (e : Event) :
    st.packets_in_total ≤ (step st e).packets_in_total := by
  cases e with
  | iter tid items =>
    simp [step, runIteration_fst]
  | srcPull a b now => exact Nat.le_refl _
  | dstPull a b => exact Nat.le_refl _
  | ratePull now => exact Nat.le_refl _

theorem step_packets_out_le (st : GlobalState) (e : Event) :
    st.packets_out_total ≤ (step st e).packets_out_total := by
  cases e with
  | iter tid items =>
    simp [step, runIteration_fst]
  | srcPull a b now => exact Nat.le_refl _
  | dstPull a b => exact Nat.le_refl _
  | ratePull now => exact Nat.le_refl _

theorem run_packets_in_le (st : GlobalState) (evs : List Event) :
    st.packets_in_total ≤ (run st evs).packets_in_total := by
  induction evs generalizing st with
  | nil => exact Nat.le_refl _
  | cons e es ih =>
    exact Nat.le_trans (step_packets_in_le st e) (ih (step st e))

theorem run_packets_out_le (st : GlobalState) (evs : List Event) :
    st.packets_out_total ≤ (run st evs).packets_out_total := by
  induction evs generalizing st with
  | nil => exact Nat.le_refl _
  | cons e es ih =>
    exact Nat.le_trans (step_packets_out_le st e) (ih (step st e))

theorem run_append (st : GlobalState) (evs1 evs2 : List Event) :
    run st (evs1 ++ evs2) = run (run st evs1) evs2 :=
  List.foldl_append step st evs1 evs2

theorem step_totals_eq (st : GlobalState) (e : Event)
    (h : st.packets_in_total = st.packets_out_total) :
    (step st e).packets_in_total = (step st e).packets_out_total := by
  cases e with
  | iter tid items => simp [step, runIteration_fst, h]
  | srcPull a b now => exact h
  | dstPull a b => exact h
  | ratePull now => exact h

theorem run_totals_eq (st : GlobalState) (evs : List Event)
    (h : st.packets_in_total = st.packets_out_total) :
    (run st evs).packets_in_total = (run st evs).packets_out_total := by
  induction evs generalizing st with
  | nil => exact h
  | cons e es ih =>
    exact ih (step st e) (step_totals_eq st e h)

/-- The observation list `src_gauge_cb` would build by reading the per-source
entries of a state `f`: one `packets`, one `bytes` and one `last` observation
per configured source, in configuration order. -/
def srcObsOf (f : String → SrcEntry) : List Obs :=
  (sources.map fun s =>
    [⟨((f s).packets : ℚ), [("hostname", "host1"), ("src", s), ("metric", "packets")]⟩,
     ⟨((f s).bytes : ℚ), [("hostname", "host1"), ("src", s), ("metric", "bytes")]⟩,
     ⟨((f s).last : ℚ), [("hostname", "host1"), ("src", s), ("metric", "last")]⟩]).flatten

/-- The observation list `dst_gauge_cb` would build by reading the
per-destination entries of a state `f`: one `packets` and one `bytes`
observation per configured destination, in configuration order. -/
def dstObsOf (f : String → DstEntry) : List Obs :=
  (destinations.map fun d =>
    [⟨((f d).packets : ℚ), [("hostname", "host1"), ("dst", d), ("metric", "packets")]⟩,
     ⟨((f d).bytes : ℚ), [("hostname", "host1"), ("dst", d), ("metric", "bytes")]⟩]).flatten

theorem src_gauge_cb_entry (randPk randMul : String → Nat) (now : Nat)
    (st : GlobalState) :
    ∀ s ∈ sources, (src_gauge_cb randPk randMul now st).1.src_state s =
      ⟨(st.src_state s).packets + randPk s,
       (st.src_state s).bytes + randPk s * randMul s, now⟩ := by
  intro s hs
  fin_cases hs <;> simp [src_gauge_cb, sources, updAt]

theorem src_gauge_cb_obs (randPk randMul : String → Nat) (now : Nat)
    (st : GlobalState) :
    (src_gauge_cb randPk randMul now st).2 =
      srcObsOf (src_gauge_cb randPk randMul now st).1.src_state := by
  simp [src_gauge_cb, sources, updAt, srcObsOf]

theorem dst_gauge_cb_entry (randPk randMul : String → Nat) (st : GlobalState) :
    ∀ d ∈ destinations, (dst_gauge_cb randPk randMul st).1.dst_state d =
      ⟨(st.dst_state d).packets + randPk d,
       (st.dst_state d).bytes + randPk d * randMul d⟩ := by
  intro d hd
  fin_cases hd <;> simp [dst_gauge_cb, destinations, updAt]

theorem dst_gauge_cb_obs (randPk randMul : String → Nat) (st : GlobalState) :
    (dst_gauge_cb randPk randMul st).2 =
      dstObsOf (dst_gauge_cb randPk randMul st).1.dst_state := by
  simp [dst_gauge_cb, destinations, updAt, dstObsOf]

/-- A concrete simulated item used to instantiate the theorems below. -/
def demoItem : Item :=
  ⟨"source1", "dest1", 1000, "ok", 12, "2026-10-12T00:00:00Z"⟩

/-- A concrete log record used to instantiate the theorems below. -/
def demoRecord : LogRecord :=
  mkLogRecord demoItem (some 1)

/-- C1: the rate-estimator sample `packet_rate_cb` returns
`(currentTotal - previousTotal) / max(0.001, now - previousTimestamp)` with
a strictly positive divisor, and updates `last_total` to the current total
and `last_rate_calc` to `now`; concretely, with `previousTotal = 100` at
`t = 0` and a current total of 150, sampling at `t = 5` yields exactly 10,
and an immediately following sample of the same total (elapsed 0, clamped to
0.001) raises no division error and yields the finite non-negative value 0. -/
theorem C1_rate_estimator :
    (∀ (now : ℚ) (st : GlobalState),
      packet_rate_cb now st =
        ((((st.packets_in_total : ℚ) + (st.packets_out_total : ℚ)) -
            st.rate.last_total) / max (1 / 1000) (now - st.rate.last_rate_calc),
         { st with
            rate := ⟨now, (st.packets_in_total : ℚ) + (st.packets_out_total : ℚ)⟩ }) ∧
      0 < max (1 / 1000 : ℚ) (now - st.rate.last_rate_calc)) ∧
    (packet_rate_cb 5
      { init_state 0 with packets_in_total := 150, rate := ⟨0, 100⟩ }).1 = 10 ∧
    (packet_rate_cb 5
      { init_state 0 with packets_in_total := 150, rate := ⟨0, 100⟩ }).2.rate =
      ⟨5, 150⟩ ∧
    (packet_rate_cb 5 (packet_rate_cb 5
      { init_state 0 with packets_in_total := 150, rate := ⟨0, 100⟩ }).2).1 = 0 ∧
    (0 : ℚ) ≤ (packet_rate_cb 5 (packet_rate_cb 5
      { init_state 0 with packets_in_total := 150, rate := ⟨0, 100⟩ }).2).1 := by
  refine ⟨fun now st => ⟨rfl, lt_of_lt_of_le (by norm_num) (le_max_left _ _)⟩,
    ?_, ?_, ?_, ?_⟩ <;>
    norm_num [packet_rate_cb, init_state, max_def]

/-- C2: one main-loop iteration with `req_count = 3` adds the sum of the
three values `size // 512` to both global totals, leaves the per-entity
counter state (`src_state`, `dst_state`) unchanged, and emits exactly 3 log
records, each carrying the same non-null correlation identity (the root
trace id, hex-formatted). -/
theorem C2_iteration_req3 (tid : Nat) (st : GlobalState) (i1 i2 i3 : Item)
    (h : tid ≠ 0) :
    (runIteration tid st [i1, i2, i3]).1.packets_in_total =
      st.packets_in_total + (i1.size / 512 + i2.size / 512 + i3.size / 512) ∧
    (runIteration tid st [i1, i2, i3]).1.packets_out_total =
      st.packets_out_total + (i1.size / 512 + i2.size / 512 + i3.size / 512) ∧
    (runIteration tid st [i1, i2, i3]).1.src_state = st.src_state ∧
    (runIteration tid st [i1, i2, i3]).1.dst_state = st.dst_state ∧
    (runIteration tid st [i1, i2, i3]).2.length = 3 ∧
    ∀ r ∈ (runIteration tid st [i1, i2, i3]).2,
      r.trace_id = some (formatTraceId tid) := by
  rw [runIteration_fst, runIteration_snd]
  refine ⟨by simp [sumIncs, Nat.add_assoc], by simp [sumIncs, Nat.add_assoc],
    rfl, rfl, by simp, ?_⟩
  intro r hr
  simp only [List.mem_map] at hr
  obtain ⟨it, -, rfl⟩ := hr
  simp [mkLogRecord, computeTraceId, h]

/-- Witness for C2 at a concrete iteration: root trace id 1 is non-null and
three records are emitted. -/
theorem C2_iteration_req3_witness :
    ((1 : Nat) ≠ 0) ∧
    (runIteration 1 (init_state 0) [demoItem, demoItem, demoItem]).2.length = 3 :=
  ⟨by decide,
   (C2_iteration_req3 1 (init_state 0) demoItem demoItem demoItem
      (by decide)).2.2.2.2.1⟩

/-- C3: on each pull, for every configured entity a packet increment and a
per-packet byte size from the bounded `randint` ranges are added to that
entity's cumulative counters, and the emitted observation list reports the
new cumulative values (those of the post-increment state), not the deltas. -/
theorem C3_pull_cumulative
    (randPk randMul randPkD randMulD : String → Nat) (now : Nat)
    (st : GlobalState)
    (_hPk : ∀ s ∈ sources, 50 ≤ randPk s ∧ randPk s ≤ 200)
    (_hMul : ∀ s ∈ sources, 64 ≤ randMul s ∧ randMul s ≤ 1200)
    (_hPkD : ∀ d ∈ destinations, 40 ≤ randPkD d ∧ randPkD d ≤ 160)
    (_hMulD : ∀ d ∈ destinations, 64 ≤ randMulD d ∧ randMulD d ≤ 1200) :
    (∀ s ∈ sources, (src_gauge_cb randPk randMul now st).1.src_state s =
        ⟨(st.src_state s).packets + randPk s,
         (st.src_state s).bytes + randPk s * randMul s, now⟩) ∧
    ((src_gauge_cb randPk randMul now st).2 =
      srcObsOf (src_gauge_cb randPk randMul now st).1.src_state) ∧
    (∀ d ∈ destinations, (dst_gauge_cb randPkD randMulD st).1.dst_state d =
        ⟨(st.dst_state d).packets + randPkD d,
         (st.dst_state d).bytes + randPkD d * randMulD d⟩) ∧
    ((dst_gauge_cb randPkD randMulD st).2 =
      dstObsOf (dst_gauge_cb randPkD randMulD st).1.dst_state) :=
  ⟨src_gauge_cb_entry randPk randMul now st,
   src_gauge_cb_obs randPk randMul now st,
   dst_gauge_cb_entry randPkD randMulD st,
   dst_gauge_cb_obs randPkD randMulD st⟩

/-- Witness for C3 at concrete in-range draws: source1 goes from all zeros
to 50 packets, 3200 bytes, last-seen 7. -/
theorem C3_pull_cumulative_witness :
    (src_gauge_cb (fun _ => 50) (fun _ => 64) 7 (init_state 0)).1.src_state
        "source1" = ⟨50, 3200, 7⟩ := by
  have h := (C3_pull_cumulative (fun _ => 50) (fun _ => 64) (fun _ => 40)
    (fun _ => 64) 7 (init_state 0) (by decide) (by decide) (by decide)
    (by decide)).1 "source1" (by decide)
  simpa [init_state] using h

/-- C4: the global totals never decrease: each main-loop mutation adds
exactly `size // 512` (a non-negative amount) to each total, no event kind
ever lowers them, and across any two chronologically ordered points of an
event sequence the later totals are greater than or equal to the earlier
ones. -/
theorem C4_totals_monotone :
    (∀ (tid : Nat) (st : GlobalState) (it : Item),
      (processItem tid st it).1.packets_in_total =
        st.packets_in_total + it.size / 512 ∧
      (processItem tid st it).1.packets_out_total =
        st.packets_out_total + it.size / 512) ∧
    (∀ (st : GlobalState) (evs : List Event),
      st.packets_in_total ≤ (run st evs).packets_in_total ∧
      st.packets_out_total ≤ (run st evs).packets_out_total) ∧
    (∀ (st : GlobalState) (evs1 evs2 : List Event),
      (run st evs1).packets_in_total ≤
        (run st (evs1 ++ evs2)).packets_in_total ∧
      (run st evs1).packets_out_total ≤
        (run st (evs1 ++ evs2)).packets_out_total) := by
  refine ⟨fun tid st it => ⟨rfl, rfl⟩,
    fun st evs => ⟨run_packets_in_le st evs, run_packets_out_le st evs⟩,
    fun st evs1 evs2 => ?_⟩
  rw [run_append]
  exact ⟨run_packets_in_le _ _, run_packets_out_le _ _⟩

/-- C5 counterexample: with an unwritable sink, `log_json` on a concrete
record completes with no error propagated to its caller (`raised = none`);
the failure is only reported to stderr by the logging handler, refuting the
claim that the write failure propagates to the caller of the emit
operation. -/
theorem C5_sink_failure_counterexample :
    log_json false demoRecord =
      { written := none, stderrReport := some "--- Logging error ---",
        raised := none } :=
  rfl

/-- C5 amended: a write failure of the sink is caught inside the logging
handler and reported to stderr; it does not propagate to the caller of
`log_json` (no record line is appended, but the call returns normally), and
a successful write appends the serialized record and raises nothing. -/
theorem C5_sink_failure_swallowed (r : LogRecord) :
    (log_json false r).raised = none ∧
    (log_json false r).written = none ∧
    (log_json false r).stderrReport = some "--- Logging error ---" ∧
    (log_json true r).raised = none ∧
    (log_json true r).written = some (serialize r) :=
  ⟨rfl, rfl, rfl, rfl, rfl⟩

/-- C6: a record built with no span context, or with the invalid (zero)
trace id, carries a null correlation identity and still goes through the
whole emit path without error; a record built under a root work unit with
non-zero trace id carries that id, hex-formatted, as its correlation
identity. -/
theorem C6_log_correlation_nullable (it : Item) :
    (mkLogRecord it none).trace_id = none ∧
    (mkLogRecord it (some 0)).trace_id = none ∧
    (log_json true (mkLogRecord it none)).raised = none ∧
    (log_json true (mkLogRecord it none)).written =
      some (serialize (mkLogRecord it none)) ∧
    ∀ tid : Nat, tid ≠ 0 →
      (mkLogRecord it (some tid)).trace_id = some (formatTraceId tid) := by
  refine ⟨rfl, rfl, rfl, rfl, fun tid h => ?_⟩
  simp [mkLogRecord, computeTraceId, h]

/-- Witness for C6 at trace id 1 on a concrete item. -/
theorem C6_log_correlation_nullable_witness :
    ((1 : Nat) ≠ 0) ∧
    (mkLogRecord demoItem (some 1)).trace_id = some (formatTraceId 1) :=
  ⟨by decide, (C6_log_correlation_nullable demoItem).2.2.2.2 1 (by decide)⟩

/-- C7: `lastSeenEpoch` (the `last` field) is updated only for sources: the
source pull sets every configured source's `last` to the current time, while
the destination pull, the main-loop iteration and the rate sample leave the
whole source table untouched, and destination entities have no `last`
attribute at all — no destination observation ever carries a `last`
metric label. -/
theorem C7_last_seen_sources_only
    (randPk randMul randPkD randMulD : String → Nat) (now : Nat)
    (st : GlobalState) (tid : Nat) (items : List Item) (tq : ℚ) :
    (∀ s ∈ sources,
      ((src_gauge_cb randPk randMul now st).1.src_state s).last = now) ∧
    (dst_gauge_cb randPkD randMulD st).1.src_state = st.src_state ∧
    (runIteration tid st items).1.src_state = st.src_state ∧
    (packet_rate_cb tq st).2.src_state = st.src_state ∧
    ∀ o ∈ (dst_gauge_cb randPkD randMulD st).2, ("metric", "last") ∉ o.labels := by
  refine ⟨fun s hs => ?_, rfl, by rw [runIteration_fst], rfl, fun o ho => ?_⟩
  · rw [src_gauge_cb_entry randPk randMul now st s hs]
  · rw [dst_gauge_cb_obs] at ho
    simp only [dstObsOf, destinations, List.map_cons, List.map_nil,
      List.flatten, List.mem_append, List.mem_cons, List.not_mem_nil,
      or_false, List.append_nil] at ho
    rcases ho with (rfl | rfl) | (rfl | rfl) <;> simp

/-- Witness for C7: after a concrete source pull at time 9, source2 has
last-seen 9. -/
theorem C7_last_seen_sources_only_witness :
    ((src_gauge_cb (fun _ => 50) (fun _ => 64) 9 (init_state 0)).1.src_state
      "source2").last = 9 :=
  (C7_last_seen_sources_only (fun _ => 50) (fun _ => 64) (fun _ => 40)
    (fun _ => 64) 9 (init_state 0) 1 [] 0).1 "source2" (by decide)

/-- C9: starting from the initial state (both totals zero), after any
sequence of events — main-loop iterations and metric pulls — the global
inbound and outbound totals are equal, since the only mutations add the same
amount `size // 512` to both. -/
theorem C9_totals_equal (t0 : ℚ) (evs : List Event) :
    (run (init_state t0) evs).packets_in_total =
      (run (init_state t0) evs).packets_out_total :=
  run_totals_eq (init_state t0) evs rfl

/-- C10: for every record built by the main loop, with status drawn from the
choice population, the severity is `"INFO"` iff the status is `"ok"` and
`"ERROR"` iff the status is `"error"`, and severity is fully determined by
status. -/
theorem C10_severity_from_status (it : Item) (ctx : Option Nat)
    (h : it.status ∈ statusChoices) :
    ((mkLogRecord it ctx).level = "INFO" ↔ it.status = "ok") ∧
    ((mkLogRecord it ctx).level = "ERROR" ↔ it.status = "error") ∧
    ∀ (it2 : Item) (c2 : Option Nat), it2.status = it.status →
      (mkLogRecord it2 c2).level = (mkLogRecord it ctx).level := by
  have h2 : it.status = "ok" ∨ it.status = "error" := by
    simpa [statusChoices] using h
  refine ⟨?_, ?_, fun it2 c2 he => ?_⟩
  · rcases h2 with h2 | h2 <;> simp [mkLogRecord, h2]
  · rcases h2 with h2 | h2 <;> simp [mkLogRecord, h2]
  · simp [mkLogRecord, he]

/-- Witness for C10 on a concrete ok-status item. -/
theorem C10_severity_from_status_witness :
    (demoItem.status ∈ statusChoices) ∧
    ((mkLogRecord demoItem none).level = "INFO" ↔ demoItem.status = "ok") :=
  ⟨by decide, (C10_severity_from_status demoItem none (by decide)).1⟩

end Demo
